import Mathlib

/-!
Shallow embedding of the request-resolution pipeline of the fetch-mock file
src/lib/fetch-handler.js: the response resolver, response generation,
the router / fallback policy, the call recorder, and the fetch-handler
orchestration (abort signals, pending markers, call records).

JavaScript values relevant to the pipeline are modelled by an inductive
type; callables are referenced by identifier and given meaning by an
environment mapping a function identifier and its call arguments to the
returned value, so that everything stays executable.
-/

namespace FetchMock

/-- An abort signal: only its "already aborted" state matters to the core. -/
structure Signal where
  aborted : Bool
deriving DecidableEq, Repr

/-- The request options the pipeline inspects: the HTTP method (for the
unmatched-request diagnostics) and the optional abort signal. The whole
options value may itself be absent (undefined), hence Option ReqOptions
at use sites. -/
structure ReqOptions where
  method : Option String
  signal : Option Signal
deriving DecidableEq, Repr

/-- The JavaScript values the pipeline dispatches on.
vNull stands for both null and undefined (nullish: property access throws).
vFun is a callable carrying the value of its "throws" own property (the
sinon-spy case the code guards against), vNull when the property is absent;
the behaviour of the callable lives in a FunEnv. vPromise is a thenable that
settles to the carried value. vResponse is a value for which
Response.prototype.isPrototypeOf holds. vObj is any other object, with the
value of its "throws" property (vNull models an absent property, which reads
as undefined in JavaScript). -/
inductive JSVal where
  | vNull
  | vBool (b : Bool)
  | vNum (n : Int)
  | vStr (s : String)
  | vResponse (id : Nat)
  | vObj (throwsVal : JSVal) (id : Nat)
  | vFun (fid : Nat) (throwsVal : JSVal)
  | vPromise (inner : JSVal)
deriving DecidableEq, Repr

/-- How a callable response is invoked by the resolver: with the original
Request instance alone, with (url, options), or with (url, options, request). -/
inductive CallArgs where
  | withRequest (request : JSVal)
  | withUrlOptions (url : String) (options : Option ReqOptions)
  | withAll (url : String) (options : Option ReqOptions) (request : Option JSVal)
deriving DecidableEq, Repr

/-- Meaning of callables: what the function with a given identifier returns
when invoked with given arguments. -/
def FunEnv : Type := Nat → CallArgs → JSVal

/-- JavaScript truthiness on modelled values. -/
def jsTruthy : JSVal → Bool
  | .vNull => false
  | .vBool b => b
  | .vNum n => n != 0
  | .vStr s => s != ""
  | _ => true

/-- typeof v === (quote) function (quote). -/
def isFunction : JSVal → Bool
  | .vFun _ _ => true
  | _ => false

/-- this.config.Response.prototype.isPrototypeOf(v). -/
def isResponseInstance : JSVal → Bool
  | .vResponse _ => true
  | _ => false

/-- Errors the pipeline can raise while processing a response descriptor:
a TypeError from reading a property of a nullish value (the property name is
recorded), or a user-declared value thrown via a truthy "throws" marker. -/
inductive JSError where
  | typeError (prop : String)
  | thrown (v : JSVal)
deriving DecidableEq, Repr

/-- Reading v.throws: a TypeError on nullish v, the property value on objects
and functions, undefined (vNull) everywhere else. -/
def getThrows : JSVal → Except JSError JSVal
  | .vNull => .error (.typeError "throws")
  | .vObj thr _ => .ok thr
  | .vFun _ thr => .ok thr
  | _ => .ok .vNull

/-- Promise adoption performed by returning a value from an async function
(and by await): thenables are unwrapped until a non-thenable remains. -/
def adoptThenables : JSVal → JSVal
  | .vPromise inner => adoptThenables inner
  | v => v

/-- The resolve loop of fetch-handler.js. Dispatch order follows the source:
a callable is invoked (fetch passthroughs receive the original Request
instance when available, else url and options; user responders receive url,
options and request) and in this code base its return value is returned
from the async function at once, with thenable adoption; otherwise reading
v.then throws a TypeError on nullish values; a thenable is awaited and the
loop continues with the settled value; anything else is terminal. -/
def resolve (env : FunEnv) (responseIsFetch : Bool) (url : String)
    (options : Option ReqOptions) (request : Option JSVal) :
    JSVal → Except JSError JSVal
  | .vFun fid _ =>
    if responseIsFetch then
      match request with
      | some req => .ok (adoptThenables (env fid (.withRequest req)))
      | none => .ok (adoptThenables (env fid (.withUrlOptions url options)))
    else
      .ok (adoptThenables (env fid (.withAll url options request)))
  | .vNull => .error (.typeError "then")
  | .vPromise inner => resolve env responseIsFetch url options request inner
  | v => .ok v

/-- What response generation hands back to the orchestrator: a pre-made
Response instance returned unchanged, or the terminal value delegated to the
external response-builder collaborator together with the url. -/
inductive GenResult where
  | premade (v : JSVal)
  | built (url : String) (responseConfig : JSVal)
deriving DecidableEq, Repr

/-- The post-resolve steps of generateResponse: throw response.throws when it
is truthy and the value is not itself a callable, return a pre-made Response
unchanged, otherwise delegate to the response builder. -/
def processTerminal (url : String) (response : JSVal) : Except JSError GenResult :=
  match getThrows response with
  | .error e => .error e
  | .ok thr =>
    if jsTruthy thr && !isFunction response then .error (.thrown thr)
    else if isResponseInstance response then .ok (.premade response)
    else .ok (.built url response)

/-- A MatchResult: the response descriptor to resolve and whether it is a
passthrough to the native fetch function. -/
structure MatchResult where
  response : JSVal
  responseIsFetch : Bool
deriving DecidableEq, Repr

/-- generateResponse: resolve the match result to a terminal value, then run
the throws / Response-instance / builder steps on it. -/
def generateResponse (env : FunEnv) (mr : MatchResult) (url : String)
    (options : Option ReqOptions) (request : Option JSVal) : Except JSError GenResult :=
  match resolve env mr.responseIsFetch url options request mr.response with
  | .error e => .error e
  | .ok v => processTerminal url v

/-- A registered route: matcher predicate, response descriptor, identifier. -/
structure Route where
  matcher : String → Option ReqOptions → Option JSVal → Bool
  response : JSVal
  identifier : String

/-- One entry of the call log: url, options, request, plus the identifier of
the matched route (matched case) or the isUnmatched flag (unmatched case). -/
structure CallRecord where
  url : String
  options : Option ReqOptions
  request : Option JSVal
  identifier : Option String
  isUnmatched : Bool
deriving DecidableEq, Repr

/-- FetchMock.push: append one CallRecord to the call log. -/
def push (calls : List CallRecord) (url : String) (options : Option ReqOptions)
    (request : Option JSVal) (identifier : Option String) (isUnmatched : Bool) :
    List CallRecord :=
  calls ++ [⟨url, options, request, identifier, isUnmatched⟩]

/-- The three states of config.fallbackToNetwork: the string "always", any
other truthy value, or a falsy value. -/
inductive FallbackMode where
  | always
  | enabled
  | disabled
deriving DecidableEq, Repr

/-- A synchronous configuration error (a plain Error in the source),
identified by its message. -/
structure ConfigError where
  message : String
deriving DecidableEq, Repr

/-- The mock instance state the pipeline reads and writes: the route list,
the call log, the optional fallback response, and the configuration fields
consulted by executeRouter and getNativeFetch. -/
structure FMState where
  routes : List Route
  calls : List CallRecord
  fallbackResponse : Option JSVal
  fallbackToNetwork : FallbackMode
  warnOnFallback : Bool
  realFetch : Option JSVal
  isSandbox : Bool
  configFetch : Option JSVal

/-- Message of the error thrown when network fallback is requested but no
native fetch function is reachable (verbatim from the source, typo included). -/
def nativeFetchErrorMessage : String :=
  "fetch-mock: Falling back to network only available on gloabl fetch-mock, or by setting config.fetch on sandboxed fetch-mock"

/-- FetchMock.getNativeFetch: this.realFetch, else config.fetch on a sandboxed
instance, else a synchronous configuration error. -/
def getNativeFetch (st : FMState) : Except ConfigError JSVal :=
  match st.realFetch with
  | some f => .ok f
  | none =>
    if st.isSandbox then
      match st.configFetch with
      | some f => .ok f
      | none => .error ⟨nativeFetchErrorMessage⟩
    else .error ⟨nativeFetchErrorMessage⟩

/-- (options && options.method) || "GET". -/
def methodOrGET : Option ReqOptions → String
  | none => "GET"
  | some o =>
    match o.method with
    | none => "GET"
    | some m => if m = "" then "GET" else m

/-- Message of the error thrown when no route matches, no fallback response is
defined and network fallback is disabled. -/
def noFallbackMessage (options : Option ReqOptions) (url : String) : String :=
  "fetch-mock: No fallback response defined for " ++ methodOrGET options ++ " to " ++ url

/-- The CallRecord pushed for a matched route. -/
def matchedRecord (url : String) (options : Option ReqOptions)
    (request : Option JSVal) (r : Route) : CallRecord :=
  ⟨url, options, request, some r.identifier, false⟩

/-- The CallRecord pushed for an unmatched request. -/
def unmatchedRecord (url : String) (options : Option ReqOptions)
    (request : Option JSVal) : CallRecord :=
  ⟨url, options, request, none, true⟩

/-- FetchMock.router: find the first route (in registration order) whose
matcher accepts the request; on a match, push a CallRecord carrying the
identifier of the route before returning the route. Returns the found route and
the updated call log. -/
def router (st : FMState) (url : String) (options : Option ReqOptions)
    (request : Option JSVal) : Option Route × List CallRecord :=
  match st.routes.find? (fun r => r.matcher url options request) with
  | some r => (some r, push st.calls url options request (some r.identifier) false)
  | none => (none, st.calls)

/-- FetchMock.executeRouter: fallbackToNetwork = always short-circuits to the
native fetch; otherwise consult the router; on no match push an isUnmatched
CallRecord, then prefer the configured fallback response, then the native
fetch when network fallback is enabled, else throw a configuration error.
Returns the outcome (MatchResult or synchronous error) and the updated
call log. -/
def executeRouter (st : FMState) (url : String) (options : Option ReqOptions)
    (request : Option JSVal) :
    Except ConfigError MatchResult × List CallRecord :=
  if st.fallbackToNetwork = .always then
    ((getNativeFetch st).map (fun f => ⟨f, true⟩), st.calls)
  else
    match router st url options request with
    | (some r, calls1) => (.ok ⟨r.response, false⟩, calls1)
    | (none, _) =>
      let calls1 := push st.calls url options request none true
      match st.fallbackResponse with
      | some fr => (.ok ⟨fr, false⟩, calls1)
      | none =>
        if st.fallbackToNetwork = .disabled then
          (.error ⟨noFallbackMessage options url⟩, calls1)
        else
          ((getNativeFetch st).map (fun f => ⟨f, true⟩), calls1)

/-- options && options.signal && options.signal.aborted at call time. -/
def signalAlreadyAborted : Option ReqOptions → Bool
  | none => false
  | some o =>
    match o.signal with
    | some s => s.aborted
    | none => false

/-- Name carried by an AbortError instance. -/
def abortErrorName : String := "AbortError"

/-- Fixed message carried by an AbortError instance. -/
def abortErrorMessage : String := "The operation was aborted."

instance {ε α : Type} [DecidableEq ε] [DecidableEq α] : DecidableEq (Except ε α) :=
fun a b =>
  match a, b with
  | .error e, .error f =>
    if h : e = f then .isTrue (by rw [h]) else .isFalse (fun hc => h (by injection hc))
  | .error _, .ok _ => .isFalse (fun hc => Except.noConfusion hc)
  | .ok _, .error _ => .isFalse (fun hc => Except.noConfusion hc)
  | .ok x, .ok y =>
    if h : x = y then .isTrue (by rw [h]) else .isFalse (fun hc => h (by injection hc))

/-- The caller-visible outcome of fetchHandler: a synchronous throw from
executeRouter, a promise rejected with an AbortError (name and message
recorded), or the settlement of generateResponse. -/
inductive HandlerResult where
  | syncThrow (e : ConfigError)
  | rejectedAbort (name : String) (message : String)
  | genOutcome (g : Except JSError GenResult)
deriving DecidableEq, Repr

/-- Ordered events of one fetchHandler invocation, used to state ordering
properties: the router being consulted, the holding promise (PendingMarker)
being pushed, the promise being rejected by the already-aborted signal, and
generateResponse being invoked. -/
inductive Event where
  | routerAsked
  | pendingRegistered
  | abortRejected
  | genInvoked
deriving DecidableEq, Repr

/-- Result of one fetchHandler invocation: the caller-visible outcome, the
call log after the invocation, and the ordered event trace. -/
structure HandlerOutput where
  result : HandlerResult
  calls : List CallRecord
  trace : List Event

/-- FetchMock.fetchHandler (after request normalization): run executeRouter
synchronously (a configuration error propagates as a synchronous throw,
before the holding promise is pushed); then push the holding promise; inside
the returned promise, reject at once with an AbortError when the signal is
already aborted, and invoke generateResponse unconditionally — when the
promise was already rejected the generation outcome cannot affect it. -/
def fetchHandler (env : FunEnv) (st : FMState) (url : String)
    (options : Option ReqOptions) (request : Option JSVal) : HandlerOutput :=
  match executeRouter st url options request with
  | (.error e, calls1) => ⟨.syncThrow e, calls1, [.routerAsked]⟩
  | (.ok mr, calls1) =>
    let aborted := signalAlreadyAborted options
    let g := generateResponse env mr url options request
    { result :=
        if aborted then .rejectedAbort abortErrorName abortErrorMessage
        else .genOutcome g
      calls := calls1
      trace := [.routerAsked, .pendingRegistered] ++
        (if aborted then [.abortRejected] else []) ++ [.genInvoked] }

/-- One request as fed to fetchHandler. -/
structure ReqTriple where
  url : String
  options : Option ReqOptions
  request : Option JSVal

/-- The state after one fetchHandler invocation (only the call log changes). -/
def stepCall (env : FunEnv) (st : FMState) (t : ReqTriple) : FMState :=
  { st with calls := (fetchHandler env st t.url t.options t.request).calls }

/-- Sequential fetchHandler invocations threading the mock state. -/
def runCalls (env : FunEnv) (st : FMState) : List ReqTriple → FMState
  | [] => st
  | t :: ts => runCalls env (stepCall env st t) ts

/-- The single CallRecord an invocation appends when fallbackToNetwork is not
always: the matched record of the first accepting route, or the unmatched
record. -/
def expectedRecord (st : FMState) (url : String) (options : Option ReqOptions)
    (request : Option JSVal) : CallRecord :=
  match st.routes.find? (fun r => r.matcher url options request) with
  | some r => matchedRecord url options request r
  | none => unmatchedRecord url options request

/- Concrete fixtures used by witnesses and counterexamples. -/

/-- An environment where every callable returns the literal 200. -/
def env0 : FunEnv := fun _ _ => .vNum 200

/-- Function 0 returns function 1; function 1 returns the literal 200. -/
def envNested : FunEnv := fun fid _ => if fid = 0 then .vFun 1 .vNull else .vNum 200

/-- An environment where every callable returns null. -/
def envNull : FunEnv := fun _ _ => .vNull

/-- A route matching only the url /users. -/
def routeUsers : Route := ⟨fun url _ _ => url == "/users", .vNum 200, "users"⟩

/-- A catch-all route with identifier all1. -/
def routeAll1 : Route := ⟨fun _ _ _ => true, .vNum 201, "all1"⟩

/-- A second catch-all route with identifier all2. -/
def routeAll2 : Route := ⟨fun _ _ _ => true, .vNum 202, "all2"⟩

/-- Empty mock state: no routes, no calls, no fallback, network disabled. -/
def baseState : FMState := ⟨[], [], none, .disabled, false, none, false, none⟩

/-- State configured with fallbackToNetwork = always and a native fetch. -/
def stAlways : FMState :=
  { baseState with fallbackToNetwork := .always, realFetch := some (.vFun 9 .vNull) }

/-- State with three routes of which the last two both match everything. -/
def stMulti : FMState := { baseState with routes := [routeUsers, routeAll1, routeAll2] }

/-- State with one catch-all route. -/
def stCatchAll : FMState := { baseState with routes := [routeAll1] }

/-- State with a configured fallback response and no native fetch. -/
def stFallbackResp : FMState := { baseState with fallbackResponse := some (.vNum 418) }

/-- State with network fallback enabled and a native fetch. -/
def stNetEnabled : FMState :=
  { baseState with fallbackToNetwork := .enabled, realFetch := some (.vFun 9 .vNull) }

/-- Options carrying an already-aborted signal. -/
def abortedOpts : Option ReqOptions := some ⟨none, some ⟨true⟩⟩

/- Helper lemmas. -/

/-- find? over a split list returns the marked element when everything before
it fails the predicate and it satisfies it. -/
theorem find_eq_first {α : Type} (p : α → Bool) (pre post : List α) (x : α)
    (hpre : ∀ y ∈ pre, p y = false) (hx : p x = true) :
    (pre ++ x :: post).find? p = some x := by
  induction pre with
  | nil => simpa using List.find?_cons_of_pos post hx
  | cons a as ih =>
    have ha : p a = false := hpre a (List.mem_cons_self a as)
    rw [List.cons_append, List.find?_cons_of_neg _ (by simp [ha])]
    exact ih (fun y hy => hpre y (List.mem_cons_of_mem a hy))

/-- The final call log of fetchHandler equals the call log computed by
executeRouter, whatever the outcome. -/
theorem fetchHandler_calls_eq (env : FunEnv) (st : FMState) (url : String)
    (options : Option ReqOptions) (request : Option JSVal) :
    (fetchHandler env st url options request).calls =
      (executeRouter st url options request).2 := by
  unfold fetchHandler
  rcases hx : executeRouter st url options request with ⟨res, cs⟩
  cases res <;> simp

/-- When fallbackToNetwork is not always, executeRouter appends exactly the
expected record to the call log. -/
theorem executeRouter_snd (st : FMState) (url : String)
    (options : Option ReqOptions) (request : Option JSVal)
    (h : st.fallbackToNetwork ≠ FallbackMode.always) :
    (executeRouter st url options request).2 =
      st.calls ++ [expectedRecord st url options request] := by
  unfold executeRouter router expectedRecord
  rw [if_neg h]
  cases hfind : st.routes.find? (fun r => r.matcher url options request) with
  | some r => simp [push, matchedRecord]
  | none =>
    cases st.fallbackResponse with
    | some fr => simp [push, unmatchedRecord]
    | none =>
      by_cases hd : st.fallbackToNetwork = FallbackMode.disabled <;>
        simp [hd, push, unmatchedRecord]

/- Claim theorems. -/

/-- C1: against the claim (and the comment inside the resolver), this code base
does not keep unwrapping after invoking a user-defined callable: on the
descriptor function 0 (which returns function 1, which would return the
literal 200), resolve returns function 1 itself, never reaching 200, and
generateResponse hands that function to the response builder. -/
theorem c1_function_returning_function_not_unwrapped :
    resolve envNested false "/users" none none (.vFun 0 .vNull) = .ok (.vFun 1 .vNull) ∧
    envNested 1 (.withAll "/users" none none) = .vNum 200 ∧
    (Except.ok (JSVal.vFun 1 .vNull) : Except JSError JSVal) ≠ .ok (.vNum 200) ∧
    generateResponse envNested ⟨.vFun 0 .vNull, false⟩ "/users" none none =
      .ok (.built "/users" (.vFun 1 .vNull)) := by
  refine ⟨rfl, rfl, by decide, rfl⟩

/-- C4: when no route matches, no fallback response is configured and network
fallback is disabled, fetchHandler throws synchronously — before the pending
marker is registered and before response generation is invoked — with a
message naming the method (GET by default) and the url. -/
theorem c4_unmatched_no_fallback_sync_throw (env : FunEnv) (st : FMState)
    (url : String) (options : Option ReqOptions) (request : Option JSVal)
    (hmode : st.fallbackToNetwork = FallbackMode.disabled)
    (hfb : st.fallbackResponse = none)
    (hmiss : st.routes.find? (fun r => r.matcher url options request) = none) :
    (fetchHandler env st url options request).result =
      .syncThrow ⟨"fetch-mock: No fallback response defined for " ++
        methodOrGET options ++ " to " ++ url⟩ ∧
    Event.pendingRegistered ∉ (fetchHandler env st url options request).trace ∧
    Event.genInvoked ∉ (fetchHandler env st url options request).trace ∧
    methodOrGET none = "GET" := by
  have hrouter : executeRouter st url options request =
      (.error ⟨noFallbackMessage options url⟩,
        push st.calls url options request none true) := by
    unfold executeRouter router
    rw [if_neg (by rw [hmode]; exact fun hc => FallbackMode.noConfusion hc)]
    rw [hmiss, hfb]
    simp [hmode]
  refine ⟨?_, ?_, ?_, rfl⟩ <;> simp [fetchHandler, hrouter, noFallbackMessage]

/-- C4 witness: on the empty state with url /other and absent options, the
handler throws synchronously naming GET and /other. -/
theorem c4_unmatched_no_fallback_sync_throw_witness :
    (fetchHandler env0 baseState "/other" none none).result =
      .syncThrow ⟨"fetch-mock: No fallback response defined for " ++
        methodOrGET none ++ " to " ++ "/other"⟩ ∧
    Event.pendingRegistered ∉ (fetchHandler env0 baseState "/other" none none).trace ∧
    Event.genInvoked ∉ (fetchHandler env0 baseState "/other" none none).trace ∧
    methodOrGET none = "GET" :=
  c4_unmatched_no_fallback_sync_throw env0 baseState "/other" none none rfl rfl rfl

/-- C5: the router returns the first route in registration order whose
matcher accepts the request, even when later routes would also accept it,
and the call log gains the matched record carrying the identifier of the route;
through executeRouter (when fallbackToNetwork is not always) the same match
is returned as the response descriptor. -/
theorem c5_router_first_match (st : FMState) (url : String)
    (options : Option ReqOptions) (request : Option JSVal)
    (pre post : List Route) (r : Route)
    (hroutes : st.routes = pre ++ r :: post)
    (hpre : ∀ y ∈ pre, y.matcher url options request = false)
    (hr : r.matcher url options request = true) :
    router st url options request =
      (some r, st.calls ++ [matchedRecord url options request r]) ∧
    (st.fallbackToNetwork ≠ FallbackMode.always →
      executeRouter st url options request =
        (.ok ⟨r.response, false⟩, st.calls ++ [matchedRecord url options request r])) := by
  have hfind : st.routes.find? (fun y => y.matcher url options request) = some r := by
    rw [hroutes]
    exact find_eq_first _ pre post r hpre hr
  have hrouterEq : router st url options request =
      (some r, st.calls ++ [matchedRecord url options request r]) := by
    unfold router
    rw [hfind]
    simp [push, matchedRecord]
  refine ⟨hrouterEq, fun hmode => ?_⟩
  unfold executeRouter
  rw [if_neg hmode, hrouterEq]

/-- C5 witness: with routes [users, all1, all2] and url /other, the users
matcher fails, both catch-alls would accept, and the first of them (all1) is
returned with its record. -/
theorem c5_router_first_match_witness :
    routeAll1.matcher "/other" none none = true ∧
    routeAll2.matcher "/other" none none = true ∧
    router stMulti "/other" none none =
      (some routeAll1, stMulti.calls ++ [matchedRecord "/other" none none routeAll1]) ∧
    executeRouter stMulti "/other" none none =
      (.ok ⟨routeAll1.response, false⟩,
        stMulti.calls ++ [matchedRecord "/other" none none routeAll1]) := by
  have h := c5_router_first_match stMulti "/other" none none
    [routeUsers] [routeAll2] routeAll1 rfl (by decide) rfl
  exact ⟨rfl, rfl, h.1, h.2 (by decide)⟩

/-- C7: argument selection when the resolve loop reaches a callable: a fetch
passthrough with an original Request instance receives that instance alone;
a fetch passthrough without one receives url and options; a user responder
receives url, options and request; a callable reached through a thenable is
treated the same way. -/
theorem c7_resolve_callable_arguments (env : FunEnv) (url : String)
    (options : Option ReqOptions) (reqObj : JSVal) (request : Option JSVal)
    (fid : Nat) (thr : JSVal) :
    resolve env true url options (some reqObj) (.vFun fid thr) =
      .ok (adoptThenables (env fid (.withRequest reqObj))) ∧
    resolve env true url options none (.vFun fid thr) =
      .ok (adoptThenables (env fid (.withUrlOptions url options))) ∧
    resolve env false url options request (.vFun fid thr) =
      .ok (adoptThenables (env fid (.withAll url options request))) ∧
    resolve env true url options (some reqObj) (.vPromise (.vFun fid thr)) =
      resolve env true url options (some reqObj) (.vFun fid thr) :=
  ⟨rfl, rfl, rfl, rfl⟩

/-- C8: a terminal value with a truthy throws property that is not callable
makes generation throw that value unmodified, while a callable terminal value
carrying the same property is never treated as an error marker and goes to
the response builder instead. -/
theorem c8_throws_marker_guard (env : FunEnv) (url : String)
    (options : Option ReqOptions) (request : Option JSVal)
    (e : JSVal) (oid fid : Nat)
    (htruthy : jsTruthy e = true) :
    processTerminal url (.vObj e oid) = .error (.thrown e) ∧
    processTerminal url (.vFun fid e) = .ok (.built url (.vFun fid e)) ∧
    generateResponse env ⟨.vObj e oid, false⟩ url options request =
      .error (.thrown e) := by
  unfold generateResponse resolve processTerminal getThrows
  simp [htruthy, isFunction, isResponseInstance]

/-- C8 witness: the object error value at id 7 is truthy; a literal
descriptor carrying it as throws makes generation throw it, and a callable
carrying it is passed to the builder untouched. -/
theorem c8_throws_marker_guard_witness :
    jsTruthy (JSVal.vObj .vNull 7) = true ∧
    processTerminal "/a" (.vObj (.vObj .vNull 7) 1) = .error (.thrown (.vObj .vNull 7)) ∧
    processTerminal "/a" (.vFun 2 (.vObj .vNull 7)) =
      .ok (.built "/a" (.vFun 2 (.vObj .vNull 7))) ∧
    generateResponse env0 ⟨.vObj (.vObj .vNull 7) 1, false⟩ "/a" none none =
      .error (.thrown (.vObj .vNull 7)) := by
  have h := c8_throws_marker_guard env0 "/a" none none (.vObj .vNull 7) 1 2 rfl
  exact ⟨rfl, h.1, h.2.1, h.2.2⟩

/-- C10: nullish values are not terminal for the pipeline: resolve throws a
TypeError reading then on a nullish descriptor (also when a thenable settles
to one), and generation throws a TypeError reading throws when a callable
returns a nullish value. -/
theorem c10_nullish_not_terminal (env : FunEnv) (riF : Bool) (url : String)
    (options : Option ReqOptions) (request : Option JSVal) (fid : Nat)
    (henv : env fid (.withAll url options request) = .vNull) :
    resolve env riF url options request .vNull = .error (.typeError "then") ∧
    resolve env riF url options request (.vPromise .vNull) =
      .error (.typeError "then") ∧
    processTerminal url .vNull = .error (.typeError "throws") ∧
    generateResponse env ⟨.vFun fid .vNull, false⟩ url options request =
      .error (.typeError "throws") := by
  refine ⟨rfl, rfl, rfl, ?_⟩
  simp [generateResponse, resolve, henv, adoptThenables, processTerminal, getThrows]

/-- C10 witness: with the environment whose callables all return null, the
nullish descriptor, the thenable settling to null and the callable returning
null all raise the TypeErrors. -/
theorem c10_nullish_not_terminal_witness :
    envNull 0 (.withAll "/a" none none) = .vNull ∧
    resolve envNull false "/a" none none .vNull = .error (.typeError "then") ∧
    resolve envNull false "/a" none none (.vPromise .vNull) =
      .error (.typeError "then") ∧
    processTerminal "/a" .vNull = .error (.typeError "throws") ∧
    generateResponse envNull ⟨.vFun 0 .vNull, false⟩ "/a" none none =
      .error (.typeError "throws") := by
  have h := c10_nullish_not_terminal envNull false "/a" none none 0 rfl
  exact ⟨rfl, h.1, h.2.1, h.2.2.1, h.2.2.2⟩

/-- Sequential invocations each append their record in invocation order, as
long as fallbackToNetwork is not always. -/
theorem runCalls_calls_append (env : FunEnv) (ts : List ReqTriple) :
    ∀ st : FMState, st.fallbackToNetwork ≠ FallbackMode.always →
      ∃ recs : List CallRecord, recs.length = ts.length ∧
        (runCalls env st ts).calls = st.calls ++ recs := by
  induction ts with
  | nil => exact fun st _ => ⟨[], rfl, by simp [runCalls]⟩
  | cons t ts ih =>
    intro st h
    obtain ⟨recs, hlen, hcalls⟩ := ih (stepCall env st t) h
    refine ⟨expectedRecord st t.url t.options t.request :: recs, by simp [hlen], ?_⟩
    have hstep : (stepCall env st t).calls =
        st.calls ++ [expectedRecord st t.url t.options t.request] := by
      rw [stepCall, fetchHandler_calls_eq, executeRouter_snd _ _ _ _ h]
    rw [runCalls, hcalls, hstep, List.append_assoc]
    rfl

/-- C2 (amended): when fallbackToNetwork is not always, every invocation —
matched or unmatched, throwing or not — appends exactly one CallRecord, and
sequential invocations append their records in invocation order. -/
theorem c2_one_record_per_invocation (env : FunEnv) (st : FMState)
    (url : String) (options : Option ReqOptions) (request : Option JSVal)
    (h : st.fallbackToNetwork ≠ FallbackMode.always) :
    (fetchHandler env st url options request).calls =
      st.calls ++ [expectedRecord st url options request] ∧
    ∀ ts : List ReqTriple,
      ∃ recs : List CallRecord, recs.length = ts.length ∧
        (runCalls env st ts).calls = st.calls ++ recs := by
  refine ⟨?_, fun ts => runCalls_calls_append env ts st h⟩
  rw [fetchHandler_calls_eq, executeRouter_snd _ _ _ _ h]

/-- C2 witness: one invocation against the catch-all state appends exactly
one record, and two sequential invocations append two. -/
theorem c2_one_record_per_invocation_witness :
    stCatchAll.fallbackToNetwork ≠ FallbackMode.always ∧
    (fetchHandler env0 stCatchAll "/a" none none).calls =
      stCatchAll.calls ++ [expectedRecord stCatchAll "/a" none none] ∧
    ∃ recs : List CallRecord, recs.length = 2 ∧
      (runCalls env0 stCatchAll [⟨"/a", none, none⟩, ⟨"/b", none, none⟩]).calls =
        stCatchAll.calls ++ recs := by
  have h := c2_one_record_per_invocation env0 stCatchAll "/a" none none (by decide)
  exact ⟨by decide, h.1, h.2 [⟨"/a", none, none⟩, ⟨"/b", none, none⟩]⟩

/-- C2 counterexample: with fallbackToNetwork = always, an invocation appends
no CallRecord at all, refuting the exactly-one claim at this input. -/
theorem c2_always_appends_no_record :
    stAlways.calls = [] ∧
    (fetchHandler env0 stAlways "/a" none none).calls = [] ∧
    ∀ rec : CallRecord,
      (fetchHandler env0 stAlways "/a" none none).calls ≠ stAlways.calls ++ [rec] := by
  refine ⟨rfl, rfl, fun rec h => ?_⟩
  have h2 : ([] : List CallRecord) = [rec] := h
  exact List.noConfusion h2

/-- C3 (amended): an already-aborted signal makes the returned promise reject
with an AbortError (name AbortError, fixed message), but response generation
is still invoked — its outcome merely cannot affect the already-rejected
promise. -/
theorem c3_aborted_signal_rejects_but_generation_runs (env : FunEnv)
    (st : FMState) (url : String) (options : Option ReqOptions)
    (request : Option JSVal) (mr : MatchResult) (cs : List CallRecord)
    (hab : signalAlreadyAborted options = true)
    (hok : executeRouter st url options request = (.ok mr, cs)) :
    (fetchHandler env st url options request).result =
      .rejectedAbort abortErrorName abortErrorMessage ∧
    Event.genInvoked ∈ (fetchHandler env st url options request).trace := by
  unfold fetchHandler
  rw [hok]
  simp [hab]

/-- C3 witness: catch-all state, aborted signal: the result is the AbortError
rejection and generation was invoked. -/
theorem c3_aborted_signal_rejects_but_generation_runs_witness :
    signalAlreadyAborted abortedOpts = true ∧
    (fetchHandler env0 stCatchAll "/a" abortedOpts none).result =
      .rejectedAbort abortErrorName abortErrorMessage ∧
    Event.genInvoked ∈ (fetchHandler env0 stCatchAll "/a" abortedOpts none).trace := by
  have h := c3_aborted_signal_rejects_but_generation_runs env0 stCatchAll "/a"
    abortedOpts none ⟨routeAll1.response, false⟩
    (stCatchAll.calls ++ [matchedRecord "/a" abortedOpts none routeAll1]) rfl rfl
  exact ⟨rfl, h.1, h.2⟩

/-- C3 counterexample: at the same input the second half of the claim fails — the
generation step is invoked (its event is in the trace) even though the signal
was already aborted, so generation is not skipped entirely. -/
theorem c3_generation_invoked_despite_aborted_signal :
    (fetchHandler env0 stCatchAll "/a" abortedOpts none).result =
      .rejectedAbort "AbortError" "The operation was aborted." ∧
    ¬ Event.genInvoked ∉ (fetchHandler env0 stCatchAll "/a" abortedOpts none).trace := by
  exact ⟨rfl, by decide⟩

/-- C6: the short-circuit decision order of executeRouter: always-mode
returns the native fetch as a passthrough without consulting the route list;
an unmatched request records the isUnmatched CallRecord and prefers the
configured fallback response over the network; the native fetch is used for
an unmatched request only when network fallback is enabled. -/
theorem c6_executeRouter_decision_order :
    (∀ (st : FMState) (url : String) (options : Option ReqOptions)
      (request : Option JSVal) (f : JSVal),
      st.fallbackToNetwork = FallbackMode.always →
      getNativeFetch st = .ok f →
      executeRouter st url options request = (.ok ⟨f, true⟩, st.calls) ∧
      ∀ rs : List Route,
        executeRouter { st with routes := rs } url options request =
          executeRouter st url options request) ∧
    (∀ (st : FMState) (url : String) (options : Option ReqOptions)
      (request : Option JSVal) (fr : JSVal),
      st.fallbackToNetwork ≠ FallbackMode.always →
      st.routes.find? (fun r => r.matcher url options request) = none →
      st.fallbackResponse = some fr →
      executeRouter st url options request =
        (.ok ⟨fr, false⟩, st.calls ++ [unmatchedRecord url options request])) ∧
    (∀ (st : FMState) (url : String) (options : Option ReqOptions)
      (request : Option JSVal),
      st.fallbackToNetwork = FallbackMode.enabled →
      st.routes.find? (fun r => r.matcher url options request) = none →
      st.fallbackResponse = none →
      executeRouter st url options request =
        ((getNativeFetch st).map (fun f => ⟨f, true⟩),
          st.calls ++ [unmatchedRecord url options request])) := by
  refine ⟨fun st url options request f hmode hnat => ⟨?_, fun rs => ?_⟩,
    fun st url options request fr hmode hmiss hfb => ?_,
    fun st url options request hmode hmiss hfb => ?_⟩
  · unfold executeRouter
    rw [if_pos hmode, hnat]
    rfl
  · unfold executeRouter
    rw [if_pos hmode, if_pos hmode]
    rfl
  · unfold executeRouter router
    rw [if_neg hmode, hmiss, hfb]
    simp [push, unmatchedRecord]
  · unfold executeRouter router
    rw [if_neg (by rw [hmode]; exact fun hc => FallbackMode.noConfusion hc),
      hmiss, hfb]
    simp [hmode, push, unmatchedRecord]

/-- C6 witness: the three branches at concrete states — always-mode
passthrough ignoring an added route, fallback response preferred with no
native fetch configured, native fetch for an unmatched request when network
fallback is enabled. -/
theorem c6_executeRouter_decision_order_witness :
    (executeRouter stAlways "/a" none none = (.ok ⟨.vFun 9 .vNull, true⟩, []) ∧
      executeRouter { stAlways with routes := [routeAll1] } "/a" none none =
        executeRouter stAlways "/a" none none) ∧
    executeRouter stFallbackResp "/a" none none =
      (.ok ⟨.vNum 418, false⟩, [] ++ [unmatchedRecord "/a" none none]) ∧
    executeRouter stNetEnabled "/a" none none =
      ((getNativeFetch stNetEnabled).map (fun f => ⟨f, true⟩),
        [] ++ [unmatchedRecord "/a" none none]) := by
  obtain ⟨h1, h2, h3⟩ := c6_executeRouter_decision_order
  obtain ⟨h1a, h1b⟩ := h1 stAlways "/a" none none (.vFun 9 .vNull) rfl rfl
  exact ⟨⟨h1a, h1b [routeAll1]⟩,
    h2 stFallbackResp "/a" none none (.vNum 418) (by decide) rfl rfl,
    h3 stNetEnabled "/a" none none rfl rfl rfl⟩

/-- C9 (amended): the pending marker is registered after the synchronous
router step but before response generation is invoked (and before any
asynchronous work), so a concurrent flush still observes the request. -/
theorem c9_pending_after_router_before_generation (env : FunEnv)
    (st : FMState) (url : String) (options : Option ReqOptions)
    (request : Option JSVal) (mr : MatchResult) (cs : List CallRecord)
    (hok : executeRouter st url options request = (.ok mr, cs)) :
    Event.pendingRegistered ∈ (fetchHandler env st url options request).trace ∧
    (fetchHandler env st url options request).trace.indexOf Event.routerAsked <
      (fetchHandler env st url options request).trace.indexOf Event.pendingRegistered ∧
    (fetchHandler env st url options request).trace.indexOf Event.pendingRegistered <
      (fetchHandler env st url options request).trace.indexOf Event.genInvoked := by
  unfold fetchHandler
  rw [hok]
  cases hab : signalAlreadyAborted options <;> simp [hab]

/-- C9 witness: catch-all state, no signal: the pending marker event sits
between the router event and the generation event. -/
theorem c9_pending_after_router_before_generation_witness :
    Event.pendingRegistered ∈ (fetchHandler env0 stCatchAll "/a" none none).trace ∧
    (fetchHandler env0 stCatchAll "/a" none none).trace.indexOf Event.routerAsked <
      (fetchHandler env0 stCatchAll "/a" none none).trace.indexOf Event.pendingRegistered ∧
    (fetchHandler env0 stCatchAll "/a" none none).trace.indexOf Event.pendingRegistered <
      (fetchHandler env0 stCatchAll "/a" none none).trace.indexOf Event.genInvoked :=
  c9_pending_after_router_before_generation env0 stCatchAll "/a" none none
    ⟨routeAll1.response, false⟩
    (stCatchAll.calls ++ [matchedRecord "/a" none none routeAll1]) rfl

/-- C9 counterexample: at a concrete input the router event strictly precedes
the pending-marker event, refuting the claim that the marker is registered
before the router is asked. -/
theorem c9_router_asked_before_pending :
    (fetchHandler env0 stCatchAll "/a" none none).trace =
      [.routerAsked, .pendingRegistered, .genInvoked] ∧
    ¬ ((fetchHandler env0 stCatchAll "/a" none none).trace.indexOf
        Event.pendingRegistered <
      (fetchHandler env0 stCatchAll "/a" none none).trace.indexOf
        Event.routerAsked) := by
  exact ⟨rfl, by decide⟩

end FetchMock
